import Mathlib

/-!
Verification development for the OBD-II car-diagnostic core: data models,
the DTC severity classifier, VIN decoding, the hypothesis/validation engine,
and the connection managers.  Each definition is a shallow embedding of the
corresponding Python function; theorems settle the specification claims.
-/

namespace CarDiag

/-! ## Python string / dict semantics helpers -/

/-- Python str.startswith: the second string is a prefix of the first. -/
def startswith (s pat : String) : Bool :=
  pat.data.isPrefixOf s.data

/-- Sublist-of-consecutive-characters test, the semantics of Python's
infix membership test on strings (needle in hay). -/
def charsContains : List Char → List Char → Bool
  | _, [] => true
  | hay, needle =>
    match hay with
    | [] => false
    | _ :: t => needle.isPrefixOf hay || charsContains t needle

/-- Python substring containment: needle in hay. -/
def strContains (hay needle : String) : Bool :=
  charsContains hay.data needle.data

/-- Python str.upper restricted to ASCII (the domain of VIN characters). -/
def pyStrUpper (s : String) : String :=
  ⟨s.data.map Char.toUpper⟩

/-- Lookup in a Python dict built from a literal list of key/value pairs:
a later binding of the same key overwrites an earlier one, so the lookup
first consults the tail of the list. -/
def pyDictGet {α β : Type} [DecidableEq α] : List (α × β) → α → Option β
  | [], _ => none
  | (k, v) :: rest, key =>
    match pyDictGet rest key with
    | some v' => some v'
    | none => if key = k then some v else none

/-! ## obd_models.py -/

/-- Severity level of a Diagnostic Trouble Code (enum DTCSeverity). -/
inductive DTCSeverity
  | critical
  | warning
  | info
deriving DecidableEq, Repr

/-- The .value string of each DTCSeverity enum member. -/
def DTCSeverity.value : DTCSeverity → String
  | .critical => "critical"
  | .warning => "warning"
  | .info => "info"

/-- LiveDataReading dataclass (timestamp omitted: it never influences
 is_within_range or the hypothesis/validation engine). Values are modelled
as rationals. -/
structure LiveDataReading where
  pid : String
  name : String
  value : ℚ
  unit : String
  min_value : Option ℚ := none
  max_value : Option ℚ := none
deriving DecidableEq

/-- LiveDataReading.is_within_range:
if min_value is not None and value < min_value: return False;
if max_value is not None and value > max_value: return False;
return True. -/
def is_within_range (r : LiveDataReading) : Bool :=
  if r.min_value.any (fun m => r.value < m) then false
  else if r.max_value.any (fun m => m < r.value) then false
  else true

/-- Spec-worded comparator for the refinement claim about in_range:
true iff value lies in the closed interval when BOTH bounds are present,
else true. -/
def spec_in_range (r : LiveDataReading) : Bool :=
  match r.min_value, r.max_value with
  | some m, some M => decide (m ≤ r.value ∧ r.value ≤ M)
  | _, _ => true

/-! ## obd_services.py: DTCReaderService._determine_severity -/

/-- Critical DTC pattern list from _determine_severity. -/
def critical_patterns : List String := ["P0300", "P030", "P0420", "P0430"]

/-- Warning DTC pattern list from _determine_severity. -/
def warning_patterns : List String := ["P0171", "P0172", "P0174", "P0175"]

/-- DTCReaderService._determine_severity: first matching critical pattern
wins, then warning patterns, else Info. -/
def determine_severity (dtc_code : String) : DTCSeverity :=
  if critical_patterns.any (fun p => startswith dtc_code p) then .critical
  else if warning_patterns.any (fun p => startswith dtc_code p) then .warning
  else .info

/-- A code belongs to the critical family: some critical pattern is a
prefix of it. -/
def inCriticalFamily (code : String) : Prop :=
  ∃ p ∈ critical_patterns, startswith code p = true

/-- A code belongs to the warning family: some warning pattern is a
prefix of it. -/
def inWarningFamily (code : String) : Prop :=
  ∃ p ∈ warning_patterns, startswith code p = true

instance (code : String) : Decidable (inCriticalFamily code) := by
  unfold inCriticalFamily; infer_instance

instance (code : String) : Decidable (inWarningFamily code) := by
  unfold inWarningFamily; infer_instance

/-! ## obd_services.py: VehicleInfoService VIN decoding -/

/-- The year_map dict literal of _decode_year_from_vin, in source order.
The keys 'A' through 'S' are repeated; Python dict-literal semantics keep
the later binding. -/
def year_map_entries : List (Char × Nat) :=
  [('A', 1980), ('B', 1981), ('C', 1982), ('D', 1983), ('E', 1984), ('F', 1985),
   ('G', 1986), ('H', 1987), ('J', 1988), ('K', 1989), ('L', 1990), ('M', 1991),
   ('N', 1992), ('P', 1993), ('R', 1994), ('S', 1995), ('T', 1996), ('V', 1997),
   ('W', 1998), ('X', 1999), ('Y', 2000), ('1', 2001), ('2', 2002), ('3', 2003),
   ('4', 2004), ('5', 2005), ('6', 2006), ('7', 2007), ('8', 2008), ('9', 2009),
   ('A', 2010), ('B', 2011), ('C', 2012), ('D', 2013), ('E', 2014), ('F', 2015),
   ('G', 2016), ('H', 2017), ('J', 2018), ('K', 2019), ('L', 2020), ('M', 2021),
   ('N', 2022), ('P', 2023), ('R', 2024), ('S', 2025)]

/-- VehicleInfoService._decode_year_from_vin: year_map.get(year_code.upper()). -/
def decode_year_from_vin (year_code : Char) : Option Nat :=
  pyDictGet year_map_entries year_code.toUpper

/-- The wmi_map dict literal of _decode_make_from_wmi. -/
def wmi_map_entries : List (String × String) :=
  [("1G1", "Chevrolet"), ("1G6", "Cadillac"), ("1GT", "GMC"),
   ("1FT", "Ford"), ("1FA", "Ford"), ("1FB", "Ford"),
   ("2HG", "Honda"), ("2HK", "Honda"),
   ("4T1", "Toyota"), ("4T3", "Lexus"),
   ("WBA", "BMW"), ("WBS", "BMW"),
   ("WAU", "Audi"), ("WVW", "Volkswagen"),
   ("JHM", "Honda"), ("JTD", "Toyota"),
   ("KNA", "Kia"), ("KMH", "Hyundai")]

/-- VehicleInfoService._decode_make_from_wmi: wmi_map.get(wmi.upper()). -/
def decode_make_from_wmi (wmi : String) : Option String :=
  pyDictGet wmi_map_entries (pyStrUpper wmi)

/-- VehicleInfoService._parse_vin: length gate, then year from vin[9] and
make from vin[:3]; model is always None. (Python's `not vin` truthiness
test is subsumed by the length test: an empty string has length 0 ≠ 17.) -/
def parse_vin (vin : String) : Option String × Option String × Option Nat :=
  if vin.length ≠ 17 then (none, none, none)
  else
    let year :=
      match vin.data.get? 9 with
      | some c => decode_year_from_vin c
      | none => none
    let make := decode_make_from_wmi ⟨vin.data.take 3⟩
    (make, none, year)

/-! ## agent.py: hypothesis and validation engine

The two functions read obd_data["dtcs"] (a list of dicts; only the "code"
and "severity" entries are consulted) and obd_data["live_data"] (a dict
pid -> {name, value, unit, in_range, timestamp}; the timestamp is never
consulted). -/

/-- One entry of obd_data["dtcs"] as consulted by the engine: the dict's
code and severity strings (severity is DTCSeverity.value as serialized by
get_obd_diagnostic_data). -/
structure DTCRec where
  code : String
  severity : String
deriving DecidableEq

/-- One entry of obd_data["live_data"] as consulted by the engine. -/
structure LiveRec where
  name : String
  value : ℚ
  unit : String
  in_range : Bool
deriving DecidableEq

/-- One emitted hypothesis: its id, title and confidence strings plus the
supporting dtcs/parameters lists (the constant description and
likely_causes prose of each branch is elided). -/
structure Hyp where
  id : String
  title : String
  confidence : String
  dtcs : List String := []
  parameters : List String := []
deriving DecidableEq

/-- The fuel-system code list used by both engine functions. -/
def fuel_code_list : List String := ["P0171", "P0172", "P0174", "P0175"]

/-- The catalyst code list used by both engine functions. -/
def emission_code_list : List String := ["P0420", "P0430"]

/-- The MAF sensor code list used by the validator. -/
def maf_code_list : List String := ["P0100", "P0101", "P0102", "P0103"]

/-- CarDiagnosticAgent._generate_diagnostic_hypotheses: five independent
family checks, each appending at most one hypothesis, in source order. -/
def generate_diagnostic_hypotheses (dtcs : List DTCRec)
    (live_data : List (String × LiveRec)) : List Hyp :=
  let fuel_system_codes := dtcs.filter (fun d => fuel_code_list.contains d.code)
  let h1 : List Hyp :=
    if fuel_system_codes ≠ [] then
      [{ id := "fuel_system", title := "Fuel System Imbalance",
         confidence := if 1 < fuel_system_codes.length then "High" else "Medium",
         dtcs := fuel_system_codes.map (fun d => d.code) }]
    else []
  let misfire_codes := dtcs.filter (fun d => startswith d.code "P03")
  let h2 : List Hyp :=
    if misfire_codes ≠ [] then
      [{ id := "ignition_system", title := "Ignition System Malfunction",
         confidence :=
           if misfire_codes.any (fun d => strContains d.code "P0300") then "High"
           else "Medium",
         dtcs := misfire_codes.map (fun d => d.code) }]
    else []
  let emission_codes := dtcs.filter (fun d => emission_code_list.contains d.code)
  let h3 : List Hyp :=
    if emission_codes ≠ [] then
      [{ id := "emission_system", title := "Emission Control System Deterioration",
         confidence := "High",
         dtcs := emission_codes.map (fun d => d.code) }]
    else []
  let evap_codes := dtcs.filter
    (fun d => startswith d.code "P04" && !emission_code_list.contains d.code)
  let h4 : List Hyp :=
    if evap_codes ≠ [] then
      [{ id := "evap_system", title := "Evaporative Emission Control System Leak",
         confidence := "Medium",
         dtcs := evap_codes.map (fun d => d.code) }]
    else []
  let out_of_range_params :=
    (live_data.filter (fun pd => !pd.2.in_range)).map (fun pd => pd.1)
  let h5 : List Hyp :=
    if out_of_range_params ≠ [] then
      [{ id := "sensor_issues",
         title := "Sensor Malfunction or Abnormal Operating Conditions",
         confidence := "Medium",
         parameters := out_of_range_params }]
    else []
  h1 ++ h2 ++ h3 ++ h4 ++ h5

/-- One validation warning emitted by _validate_diagnostic_data, tagged by
which branch produced it; the out-of-range variants carry the
(name, value, unit) triples that the source interpolates into the message. -/
inductive ValidationWarning
  | fuel_misfire_correlation (fuel_codes misfire_codes : List String)
  | maf_fuel_trim_correlation (maf_codes fuel_trim_codes : List String)
  | out_of_range_with_dtcs (params : List (String × ℚ × String))
  | out_of_range_only (params : List (String × ℚ × String))
  | critical_banner
deriving DecidableEq

/-- CarDiagnosticAgent._validate_diagnostic_data: correlation checks,
then the range check, then the critical-severity banner, in source order. -/
def validate_diagnostic_data (dtcs : List DTCRec)
    (live_data : List (String × LiveRec)) : List ValidationWarning :=
  let dtc_codes := dtcs.map (fun d => d.code)
  let fuel_codes := dtc_codes.filter (fun c => fuel_code_list.contains c)
  let misfire_codes := dtc_codes.filter (fun c => startswith c "P03")
  let w1 : List ValidationWarning :=
    if fuel_codes ≠ [] ∧ misfire_codes ≠ [] then
      [.fuel_misfire_correlation fuel_codes misfire_codes]
    else []
  let maf_codes := dtc_codes.filter (fun c => maf_code_list.contains c)
  let fuel_trim_codes := dtc_codes.filter (fun c => fuel_code_list.contains c)
  let w2 : List ValidationWarning :=
    if maf_codes ≠ [] ∧ fuel_trim_codes ≠ [] then
      [.maf_fuel_trim_correlation maf_codes fuel_trim_codes]
    else []
  let out_of_range_params :=
    (live_data.filter (fun pd => !pd.2.in_range)).map
      (fun pd => (pd.2.name, pd.2.value, pd.2.unit))
  let w3 : List ValidationWarning :=
    if out_of_range_params ≠ [] ∧ dtc_codes ≠ [] then
      [.out_of_range_with_dtcs out_of_range_params]
    else if out_of_range_params ≠ [] then
      [.out_of_range_only out_of_range_params]
    else []
  let critical_codes := dtcs.filter (fun d => d.severity = "critical")
  let w4 : List ValidationWarning :=
    if critical_codes ≠ [] then [.critical_banner] else []
  w1 ++ w2 ++ w3 ++ w4

/-! ## Connection managers (obd_interface.py, enhanced_obd_interface.py)

The managers are async Python objects doing transport I/O.  They are
embedded as explicit state-passing functions; the behaviour of the
underlying transport (what obd.OBD() / connection.query() / close() would
do) enters as explicit outcome parameters, and a Python exception escaping
an operation is modelled as the error branch of Except. -/

/-- A Python exception escaping a call. -/
inductive PyExc
  | attributeError (attr : String)
  | exc (msg : String)
deriving DecidableEq

/-- Payload of a successful OBDResponse (the "data" dict), tagged by
shape. -/
inductive RespData
  | connected (protocol : String)
  | alreadyConnected (protocol : String)
  | disconnected
  | queryValue (command : String) (value : Int) (unit : Option String)
  | mockValue (command : String)
deriving DecidableEq

/-- OBDResponse dataclass: success flag, optional data, optional error
message (timestamp omitted). -/
structure OBDResponse where
  success : Bool
  data : Option RespData := none
  error_message : Option String := none
deriving DecidableEq

/-- Whether an OBDInterfaceManager object is a plain instance or a
MockOBDInterfaceManager instance (only the Mock subclass's init sets the
_simulation_data / _mock_dtcs / _mock_live_data attributes). -/
inductive ManagerKind
  | plain
  | mock
deriving DecidableEq

/-- State of a base OBDInterfaceManager relevant to query:
_is_connected, whether _connection is not None, the instance kind, and
(for mock instances) whether truthy _simulation_data with an "obd_data"
entry has been injected. -/
structure BaseState where
  kind : ManagerKind
  is_connected_flag : Bool
  has_connection : Bool
  simulation_injected : Bool := false
deriving DecidableEq

/-- OBDInterfaceManager.is_connected property:
_is_connected and _connection is not None. -/
def base_is_connected (s : BaseState) : Bool :=
  s.is_connected_flag && s.has_connection

/-- The mock answer produced by the effective query body once the
_simulation_data attribute exists: every branch (simulation-fed DTC/RPM/
COOLANT_TEMP/THROTTLE_POS branches and the fallback DTC/RPM/SPEED/generic
branches) returns a successful response, here tagged by command name. -/
def mock_query_answer (cmd : String) : OBDResponse :=
  { success := true, data := some (.mockValue cmd) }

/-- The EFFECTIVE OBDInterfaceManager.query: the second def of query in
the class body (the mock query) shadows the first.  When connected it
immediately reads self._simulation_data, an attribute that only
MockOBDInterfaceManager.init creates, so on a plain connected manager the
call raises AttributeError, which nothing in the method catches. -/
def base_query_effective (s : BaseState) (cmd : String) :
    Except PyExc OBDResponse :=
  if !(base_is_connected s) then
    .ok { success := false,
          error_message := some "Not connected to mock OBD adapter" }
  else
    match s.kind with
    | .plain => .error (.attributeError "_simulation_data")
    | .mock => .ok (mock_query_answer cmd)

/-- State of a PersistentOBDInterfaceManager: _connection presence, the
device-level connected report of that handle, _is_connected, the cached
supported-command count, whether the keep-alive/monitor tasks run,
_auto_reconnect, and the stored config's max_retries field. -/
structure PState where
  has_connection : Bool
  device_connected : Bool
  is_connected_flag : Bool
  supported_count : Nat
  tasks_running : Bool
  auto_reconnect : Bool
  cfg_max_retries : Nat
deriving DecidableEq

/-- The hard-coded retry bound of PersistentOBDInterfaceManager.init
(self._max_retries = 3); it is NOT read from the config. -/
def internal_max_retries : Nat := 3

/-- The hard-coded retry delay of PersistentOBDInterfaceManager.init
(self._retry_delay = 2 seconds). -/
def internal_retry_delay : Nat := 2

/-- PersistentOBDInterfaceManager.is_connected property: _is_connected
and _connection is not None and _connection.is_connected(). -/
def p_is_connected (s : PState) : Bool :=
  s.is_connected_flag && s.has_connection && s.device_connected

/-- PersistentOBDInterfaceManager.disconnect.  The closeRaises parameter
is the exception, if any, that the underlying _connection.close() raises
(consulted only when a handle exists).  The try block stops the tasks,
closes, clears the cached state and returns success; an exception jumps
to the except branch, which returns a failed response with the handle and
cached fields left as they were at the raise. -/
def persistent_disconnect (s : PState) (closeRaises : Option String) :
    PState × OBDResponse :=
  let s1 := { s with tasks_running := false }
  match (if s.has_connection then closeRaises else none) with
  | some msg =>
    (s1, { success := false, error_message := some msg })
  | none =>
    ({ s1 with has_connection := false, device_connected := false,
               is_connected_flag := false, supported_count := 0 },
     { success := true, data := some .disconnected })

/-- Outcome of one transport-level query attempt
(loop.run_in_executor(None, self._connection.query, command)). -/
inductive TransportOutcome
  | value (v : Int) (unit : Option String)
  | nullResp
  | ioError (msg : String)
deriving DecidableEq

/-- The retry loop body of PersistentOBDInterfaceManager.query: up to
remaining more attempts starting at index attempt; a null response or a
raised exception is retried (after an 0.1 * (attempt+1) second sleep)
unless this was the last attempt; the manager state is never touched. -/
def query_attempt_loop (st : PState) (cmd : String)
    (outcomes : Nat → TransportOutcome) :
    Nat → Nat → PState × OBDResponse
  | _, 0 =>
    (st, { success := false, error_message := some "retry bound exhausted" })
  | attempt, 1 =>
    match outcomes attempt with
    | .value v u =>
      (st, { success := true, data := some (.queryValue cmd v u) })
    | .nullResp =>
      (st, { success := false,
             error_message := some ("No data received for command " ++ cmd) })
    | .ioError msg =>
      (st, { success := false, error_message := some msg })
  | attempt, n + 2 =>
    match outcomes attempt with
    | .value v u =>
      (st, { success := true, data := some (.queryValue cmd v u) })
    | .nullResp => query_attempt_loop st cmd outcomes (attempt + 1) (n + 1)
    | .ioError _ => query_attempt_loop st cmd outcomes (attempt + 1) (n + 1)

/-- PersistentOBDInterfaceManager.query.  reconnectOutcome is the result
of self.reconnect() should it be invoked: none means the reconnect
failed, some s' means it succeeded leaving the manager in state s'.
When not connected and auto-reconnect is off the call fails immediately;
when on, a failed reconnect fails the query and a successful one runs the
3-attempt retry loop on the reconnected state; when already connected the
loop runs on the current state. -/
def persistent_query (s : PState) (cmd : String)
    (reconnectOutcome : Option PState)
    (outcomes : Nat → TransportOutcome) : PState × OBDResponse :=
  if !(p_is_connected s) then
    if s.auto_reconnect then
      match reconnectOutcome with
      | some s' => query_attempt_loop s' cmd outcomes 0 internal_max_retries
      | none =>
        (s, { success := false,
              error_message :=
                some "Not connected to OBD adapter and reconnection failed" })
    else
      (s, { success := false,
            error_message := some "Not connected to OBD adapter" })
  else
    query_attempt_loop s cmd outcomes 0 internal_max_retries

/-- Outcome of one connection attempt inside _establish_connection:
either obd.OBD() returned a handle (whose is_connected() report and
supported-command count are given), or the attempt raised. -/
inductive ConnectOutcome
  | opened (deviceConnected : Bool) (supportedCount : Nat)
  | raised (msg : String)
deriving DecidableEq

/-- Result of the _establish_connection retry loop: final state, number
of attempts made, the sleeps performed between attempts (in seconds), and
the error message re-raised on exhaustion (none on success). -/
structure EstablishResult where
  state : PState
  attempts : Nat
  sleeps : List Nat
  err : Option String
deriving DecidableEq

/-- The for-loop of _establish_connection: range(self._max_retries)
attempts; each attempt assigns self._connection (so a handle that opened
but reports not-connected still replaces the field) and raises
OBDConnectionError when the handle is not connected; on a non-final
failed attempt the loop sleeps self._retry_delay * (attempt + 1) and
continues; the final failure is re-raised. -/
def establish_loop (outcomes : Nat → ConnectOutcome) :
    PState → Nat → Nat → List Nat → EstablishResult
  | s, _, 0, sleeps => ⟨s, 0, sleeps, some "retry bound exhausted"⟩
  | s, attempt, remaining + 1, sleeps =>
    match outcomes attempt with
    | .opened true cnt =>
      ⟨{ s with has_connection := true, device_connected := true,
                is_connected_flag := true, supported_count := cnt },
       attempt + 1, sleeps, none⟩
    | .opened false _ =>
      let s' := { s with has_connection := true, device_connected := false }
      match remaining with
      | 0 => ⟨s', attempt + 1, sleeps, some "Failed to establish OBD connection"⟩
      | r + 1 =>
        establish_loop outcomes s' (attempt + 1) (r + 1)
          (sleeps ++ [internal_retry_delay * (attempt + 1)])
    | .raised msg =>
      match remaining with
      | 0 => ⟨s, attempt + 1, sleeps, some msg⟩
      | r + 1 =>
        establish_loop outcomes s (attempt + 1) (r + 1)
          (sleeps ++ [internal_retry_delay * (attempt + 1)])

/-- PersistentOBDInterfaceManager._establish_connection: run the retry
loop with the hard-coded self._max_retries bound (the config's
max_retries field is never consulted). -/
def establish_connection (s : PState) (outcomes : Nat → ConnectOutcome) :
    EstablishResult :=
  establish_loop outcomes s 0 internal_max_retries []

/-- PersistentOBDInterfaceManager.connect: return success at once when
already connected; otherwise run _establish_connection, starting the
persistent tasks and reporting success when it returns, and catching its
re-raised exception into a failed response otherwise. -/
def persistent_connect (s : PState) (protocolName : String)
    (outcomes : Nat → ConnectOutcome) : PState × OBDResponse :=
  if p_is_connected s then
    (s, { success := true, data := some (.alreadyConnected protocolName) })
  else
    let r := establish_connection s outcomes
    match r.err with
    | none =>
      ({ r.state with tasks_running := true },
       { success := true, data := some (.connected protocolName) })
    | some msg =>
      (r.state, { success := false, error_message := some msg })

/-! ## Helper lemmas -/

/-- No code is in both severity families: every warning pattern and every
critical pattern disagree on some character position, so they cannot both
be prefixes of the same code. -/
lemma warning_family_not_critical {code : String}
    (h : inWarningFamily code) : ¬ inCriticalFamily code := by
  rcases h with ⟨w, hw, hpw⟩
  rintro ⟨c, hc, hpc⟩
  rw [startswith, List.isPrefixOf_iff_prefix] at hpw hpc
  have hor := List.prefix_or_prefix_of_prefix hpw hpc
  fin_cases hw <;> fin_cases hc <;> revert hor <;> decide

/-- Boolean form of critical-family membership. -/
lemma inCriticalFamily_iff_any (code : String) :
    inCriticalFamily code ↔
      critical_patterns.any (fun p => startswith code p) = true := by
  rw [List.any_eq_true]; exact Iff.rfl

/-- Boolean form of warning-family membership. -/
lemma inWarningFamily_iff_any (code : String) :
    inWarningFamily code ↔
      warning_patterns.any (fun p => startswith code p) = true := by
  rw [List.any_eq_true]; exact Iff.rfl

/-! ## Claim theorems -/

/-- C1: the DTC severity classifier is a pure function of the code string:
every code with a critical-family prefix maps to Critical, every code with
a warning-family prefix maps to Warning, and every other code maps to
Info. -/
theorem severity_classifier_families (code : String) :
    (inCriticalFamily code → determine_severity code = DTCSeverity.critical) ∧
    (inWarningFamily code → determine_severity code = DTCSeverity.warning) ∧
    (¬ inCriticalFamily code → ¬ inWarningFamily code →
      determine_severity code = DTCSeverity.info) := by
  refine ⟨?_, ?_, ?_⟩
  · intro h
    have h' := (inCriticalFamily_iff_any code).mp h
    simp [determine_severity, h']
  · intro h
    have h' := (inWarningFamily_iff_any code).mp h
    have hnc : critical_patterns.any (fun p => startswith code p) = false := by
      rw [Bool.eq_false_iff]
      intro hcrit
      exact warning_family_not_critical h ((inCriticalFamily_iff_any code).mpr hcrit)
    simp [determine_severity, hnc, h']
  · intro h1 h2
    have hnc : critical_patterns.any (fun p => startswith code p) = false := by
      rw [Bool.eq_false_iff]
      exact fun hcrit => h1 ((inCriticalFamily_iff_any code).mpr hcrit)
    have hnw : warning_patterns.any (fun p => startswith code p) = false := by
      rw [Bool.eq_false_iff]
      exact fun hwarn => h2 ((inWarningFamily_iff_any code).mpr hwarn)
    simp [determine_severity, hnc, hnw]

/-- C1 witness: the classifier on the claim's example codes P0300 (critical
family), P0171 (warning family) and on P0455 (neither family). -/
theorem severity_classifier_families_witness :
    determine_severity "P0300" = DTCSeverity.critical ∧
    determine_severity "P0171" = DTCSeverity.warning ∧
    determine_severity "P0455" = DTCSeverity.info :=
  ⟨(severity_classifier_families "P0300").1 (by decide),
   (severity_classifier_families "P0171").2.1 (by decide),
   (severity_classifier_families "P0455").2.2 (by decide) (by decide)⟩

/-- C3 counterexample: a reading with only a lower bound (min_value = 0,
max_value = None) and value -5 reports is_within_range = false, while the
claim's rule (in-interval when BOTH bounds present, else true) predicts
true. -/
theorem in_range_one_bound_counterexample :
    is_within_range ⟨"05", "X", -5, "u", some 0, none⟩ = false ∧
    spec_in_range ⟨"05", "X", -5, "u", some 0, none⟩ = true := by
  decide

/-- C3 amended: in_range is true iff the value respects each bound that is
present (both bounds present: value in the closed interval; no bounds:
always true; a single present violated bound also yields false). -/
theorem in_range_per_bound :
    (∀ r : LiveDataReading,
      (is_within_range r = true ↔
        (∀ m ∈ r.min_value, m ≤ r.value) ∧ (∀ M ∈ r.max_value, r.value ≤ M))) ∧
    (∀ (r : LiveDataReading) (m M : ℚ),
      r.min_value = some m → r.max_value = some M →
        (is_within_range r = true ↔ m ≤ r.value ∧ r.value ≤ M)) ∧
    (∀ r : LiveDataReading,
      r.min_value = none → r.max_value = none → is_within_range r = true) := by
  have key : ∀ r : LiveDataReading,
      is_within_range r = true ↔
        (∀ m ∈ r.min_value, m ≤ r.value) ∧ (∀ M ∈ r.max_value, r.value ≤ M) := by
    intro r
    rcases hm : r.min_value with _ | m
    · rcases hM : r.max_value with _ | M
      · simp [is_within_range, hm, hM]
      · rcases lt_or_le M r.value with h | h
        · simp [is_within_range, hm, hM, h, not_le.mpr h]
        · simp [is_within_range, hm, hM, not_lt.mpr h, h]
    · rcases hM : r.max_value with _ | M
      · rcases lt_or_le r.value m with h | h
        · simp [is_within_range, hm, hM, h, not_le.mpr h]
        · simp [is_within_range, hm, hM, not_lt.mpr h, h]
      · rcases lt_or_le r.value m with h1 | h1
        · simp [is_within_range, hm, hM, h1, not_le.mpr h1]
        · rcases lt_or_le M r.value with h2 | h2
          · simp [is_within_range, hm, hM, not_lt.mpr h1, h1, h2, not_le.mpr h2]
          · simp [is_within_range, hm, hM, not_lt.mpr h1, h1, not_lt.mpr h2, h2]
  refine ⟨key, ?_, ?_⟩
  · intro r m M hm hM
    rw [key r, hm, hM]
    simp
  · intro r hm hM
    rw [key r, hm, hM]
    simp

/-- C3 amended witness: a two-bound in-range reading, a two-bound
out-of-range reading, and a no-bound reading. -/
theorem in_range_per_bound_witness :
    is_within_range ⟨"0C", "RPM", 750, "rpm", some 0, some 8000⟩ = true ∧
    (is_within_range ⟨"05", "T", 210, "F", some 0, some 120⟩ = true ↔
      (0 : ℚ) ≤ 210 ∧ (210 : ℚ) ≤ 120) ∧
    is_within_range ⟨"0D", "Speed", 33, "kph", none, none⟩ = true :=
  ⟨(in_range_per_bound.2.1 ⟨"0C", "RPM", 750, "rpm", some 0, some 8000⟩
      0 8000 rfl rfl).mpr (by decide),
   in_range_per_bound.2.1 ⟨"05", "T", 210, "F", some 0, some 120⟩ 0 120 rfl rfl,
   in_range_per_bound.2.2 ⟨"0D", "Speed", 33, "kph", none, none⟩ rfl rfl⟩

/-- C4: VIN parsing is a deterministic function of positions 1-3 (the WMI
table) and position 10 (the year table) for 17-character VINs, and yields
all-unset make/model/year for any VIN of a different length. -/
theorem parse_vin_table_lookups :
    (∀ vin : String, vin.length ≠ 17 → parse_vin vin = (none, none, none)) ∧
    (∀ vin : String, vin.length = 17 →
      parse_vin vin =
        (decode_make_from_wmi ⟨vin.data.take 3⟩, none,
         match vin.data.get? 9 with
         | some c => decode_year_from_vin c
         | none => none)) ∧
    (∀ v w : String, v.length = 17 → w.length = 17 →
      v.data.take 3 = w.data.take 3 → v.data.get? 9 = w.data.get? 9 →
      parse_vin v = parse_vin w) := by
  have h17 : ∀ vin : String, vin.length = 17 →
      parse_vin vin =
        (decode_make_from_wmi ⟨vin.data.take 3⟩, none,
         match vin.data.get? 9 with
         | some c => decode_year_from_vin c
         | none => none) := by
    intro vin h
    unfold parse_vin
    rw [if_neg (by simp [h])]
  refine ⟨?_, h17, ?_⟩
  · intro vin h
    simp [parse_vin, h]
  · intro v w hv hw h3 h9
    rw [h17 v hv, h17 w hw, h3, h9]

/-- C4 witness: a Chevrolet VIN with year code '6' (2006) parses by the
table lookups, and a short VIN yields all-unset fields. -/
theorem parse_vin_table_lookups_witness :
    parse_vin "1G1ZT53826F109149" = (some "Chevrolet", none, some 2006) ∧
    parse_vin "ABC" = (none, none, none) :=
  ⟨(parse_vin_table_lookups.2.1 "1G1ZT53826F109149" (by decide)).trans (by decide),
   parse_vin_table_lookups.1 "ABC" (by decide)⟩

/-- First-match lookup, the standard association-list semantics; equal to
pyDictGet on the reversed entry list. -/
def firstLookup {α β : Type} [DecidableEq α] : List (α × β) → α → Option β
  | [], _ => none
  | (k, v) :: rest, key => if key = k then some v else firstLookup rest key

/-- Appending one binding at the end of a first-match lookup list only
matters when the earlier bindings miss the key. -/
lemma firstLookup_append_single {α β : Type} [DecidableEq α]
    (xs : List (α × β)) (a : α × β) (key : α) :
    firstLookup (xs ++ [a]) key =
      (firstLookup xs key).or (if key = a.1 then some a.2 else none) := by
  induction xs with
  | nil => simp [firstLookup]
  | cons x rest ih =>
    obtain ⟨k, v⟩ := x
    by_cases h : key = k <;> simp [firstLookup, h, ih]

/-- Python dict-literal lookup (later duplicate keys overwrite earlier
ones) equals first-match lookup on the reversed list. -/
lemma pyDictGet_eq_firstLookup_reverse {α β : Type} [DecidableEq α]
    (l : List (α × β)) (key : α) :
    pyDictGet l key = firstLookup l.reverse key := by
  induction l with
  | nil => rfl
  | cons a rest ih =>
    obtain ⟨k, v⟩ := a
    rw [List.reverse_cons, firstLookup_append_single, ← ih]
    cases hpd : pyDictGet rest key <;> simp [pyDictGet, hpd]

/-- Bounds check on a first-match lookup list: every binding whose key is
not shadowed by an earlier binding has its value inside [lo, hi]. -/
def firstBindingsInRange (lo hi : Nat) : List (Char × Nat) → List Char → Bool
  | [], _ => true
  | (k, v) :: rest, seen =>
    (seen.contains k || (lo ≤ v && v ≤ hi)) && firstBindingsInRange lo hi rest (k :: seen)

/-- Soundness of firstBindingsInRange: a successful first-match lookup of
an unseen key lands in [lo, hi]. -/
lemma firstBindingsInRange_sound (lo hi : Nat) :
    ∀ (l : List (Char × Nat)) (seen : List Char),
      firstBindingsInRange lo hi l seen = true →
      ∀ k y, k ∉ seen → firstLookup l k = some y → lo ≤ y ∧ y ≤ hi := by
  intro l
  induction l with
  | nil => intro seen _ k y _ h2; simp [firstLookup] at h2
  | cons a rest ih =>
    intro seen h k y hk h2
    obtain ⟨k', v⟩ := a
    rw [firstBindingsInRange, Bool.and_eq_true, Bool.or_eq_true,
      Bool.and_eq_true] at h
    rw [firstLookup] at h2
    by_cases hkk : k = k'
    · rw [if_pos hkk] at h2
      subst hkk
      rcases h.1 with hseen | hrange
      · exact absurd (by simpa using hseen) hk
      · cases h2
        exact ⟨of_decide_eq_true hrange.1, of_decide_eq_true hrange.2⟩
    · rw [if_neg hkk] at h2
      exact ih (k' :: seen) h.2 k y (by simp [hkk, hk]) h2

/-- Every successful year decode lands in 1996..2025: the duplicated
'A'..'S' keys make the 1980..1995 bindings unreachable. -/
lemma decode_year_in_range (c : Char) (y : Nat)
    (h : decode_year_from_vin c = some y) : 1996 ≤ y ∧ y ≤ 2025 := by
  rw [decode_year_from_vin, pyDictGet_eq_firstLookup_reverse] at h
  exact firstBindingsInRange_sound 1996 2025 year_map_entries.reverse []
    (by decide) c.toUpper y (by simp) h

/-- C10: the year decoder returns None or a year in 1996..2025; the
letters 'A'..'S' decode to the 2010..2025 block (the 1980..1995 dict
entries being overwritten), 'T','V','W','X','Y' to 1996..2000, and the
digits '1'..'9' to 2001..2009. -/
theorem year_decoder_effective_range :
    (∀ c y, decode_year_from_vin c = some y → 1996 ≤ y ∧ y ≤ 2025) ∧
    (([('A', 2010), ('B', 2011), ('C', 2012), ('D', 2013), ('E', 2014),
       ('F', 2015), ('G', 2016), ('H', 2017), ('J', 2018), ('K', 2019),
       ('L', 2020), ('M', 2021), ('N', 2022), ('P', 2023), ('R', 2024),
       ('S', 2025), ('T', 1996), ('V', 1997), ('W', 1998), ('X', 1999),
       ('Y', 2000), ('1', 2001), ('2', 2002), ('3', 2003), ('4', 2004),
       ('5', 2005), ('6', 2006), ('7', 2007), ('8', 2008), ('9', 2009)]
        : List (Char × Nat)).all
      (fun p => decode_year_from_vin p.1 = some p.2) = true) :=
  ⟨decode_year_in_range, by decide⟩

/-- C10 witness: the range statement applied to the decode of 'A'. -/
theorem year_decoder_effective_range_witness : 1996 ≤ 2010 ∧ 2010 ≤ 2025 :=
  year_decoder_effective_range.1 'A' 2010 (by decide)

/-- C2 scenario DTC list: P0171 and P0300 with severities assigned by the
severity classifier (P0171 is Warning, P0300 is Critical). -/
def c2_dtcs : List DTCRec :=
  [{ code := "P0171", severity := (determine_severity "P0171").value },
   { code := "P0300", severity := (determine_severity "P0300").value }]

/-- C2 scenario live data: one out-of-range coolant-temperature reading. -/
def c2_live : List (String × LiveRec) :=
  [("05", { name := "Engine Coolant Temperature", value := 210, unit := "°F",
            in_range := false })]

/-- C2 counterexample: on the scenario input the engine does emit the
Fuel-System, Misfire and Sensor hypotheses, but the validator ALSO emits
the critical-severity banner (P0300 is Critical under the classifier),
contradicting the claim's "no critical-severity banner". -/
theorem scenario_emits_critical_banner :
    (generate_diagnostic_hypotheses c2_dtcs c2_live).map Hyp.id =
      ["fuel_system", "ignition_system", "sensor_issues"] ∧
    ValidationWarning.critical_banner ∈ validate_diagnostic_data c2_dtcs c2_live := by
  decide

/-- C2 amended: the scenario yields the Fuel-System, Misfire and Sensor
hypotheses, and exactly three warnings in order: the fuel/misfire
correlation, the out-of-range note (variant with DTCs present), and the
critical-severity banner. -/
theorem scenario_full_output :
    (generate_diagnostic_hypotheses c2_dtcs c2_live).map Hyp.id =
      ["fuel_system", "ignition_system", "sensor_issues"] ∧
    validate_diagnostic_data c2_dtcs c2_live =
      [.fuel_misfire_correlation ["P0171"] ["P0300"],
       .out_of_range_with_dtcs [("Engine Coolant Temperature", 210, "°F")],
       .critical_banner] := by
  decide

/-- C9 counterexample: the misfire family ["P0301", "P0302"] (severities
from the classifier) contains two corroborating codes yet yields
confidence Medium, because the source grants High only when some misfire
code contains the substring "P0300". -/
theorem misfire_two_codes_medium :
    (generate_diagnostic_hypotheses
        [{ code := "P0301", severity := (determine_severity "P0301").value },
         { code := "P0302", severity := (determine_severity "P0302").value }]
        []).map (fun h => (h.id, h.confidence)) =
      [("ignition_system", "Medium")] := by
  decide

/-- C9 amended: confidence per family as the source computes it: the
fuel-system hypothesis is High iff more than one fuel code is present;
the ignition hypothesis is High iff some misfire code contains "P0300";
the emission (catalyst) hypothesis is always High; the EVAP and sensor
hypotheses are always Medium. -/
theorem hypothesis_confidence_rules :
    ∀ (dtcs : List DTCRec) (live : List (String × LiveRec)) (h : Hyp),
      h ∈ generate_diagnostic_hypotheses dtcs live →
      (h.id = "fuel_system" →
        (h.confidence = "High" ↔
          1 < (dtcs.filter (fun d => fuel_code_list.contains d.code)).length)) ∧
      (h.id = "ignition_system" →
        (h.confidence = "High" ↔
          (dtcs.filter (fun d => startswith d.code "P03")).any
            (fun d => strContains d.code "P0300") = true)) ∧
      (h.id = "emission_system" → h.confidence = "High") ∧
      (h.id = "evap_system" → h.confidence = "Medium") ∧
      (h.id = "sensor_issues" → h.confidence = "Medium") := by
  intro dtcs live h hmem
  unfold generate_diagnostic_hypotheses at hmem
  simp only [List.mem_append] at hmem
  rcases hmem with ((((h1 | h2) | h3) | h4) | h5)
  · by_cases hc : (dtcs.filter (fun d => fuel_code_list.contains d.code)) ≠ []
    · rw [if_pos hc, List.mem_singleton] at h1
      subst h1
      refine ⟨fun _ => ?_, fun hid => by simp at hid, fun hid => by simp at hid,
        fun hid => by simp at hid, fun hid => by simp at hid⟩
      show (if 1 < (dtcs.filter (fun d => fuel_code_list.contains d.code)).length
            then "High" else "Medium") = "High" ↔ _
      by_cases hlen : 1 < (dtcs.filter (fun d => fuel_code_list.contains d.code)).length
      · simp [hlen]
      · simp [hlen]
    · rw [if_neg hc] at h1
      exact absurd h1 (List.not_mem_nil h)
  · by_cases hc : (dtcs.filter (fun d => startswith d.code "P03")) ≠ []
    · rw [if_pos hc, List.mem_singleton] at h2
      subst h2
      refine ⟨fun hid => by simp at hid, fun _ => ?_, fun hid => by simp at hid,
        fun hid => by simp at hid, fun hid => by simp at hid⟩
      show (if (dtcs.filter (fun d => startswith d.code "P03")).any
              (fun d => strContains d.code "P0300") = true
            then "High" else "Medium") = "High" ↔ _
      by_cases hany : (dtcs.filter (fun d => startswith d.code "P03")).any
          (fun d => strContains d.code "P0300") = true
      · simp [hany]
      · simp [hany]
    · rw [if_neg hc] at h2
      exact absurd h2 (List.not_mem_nil h)
  · by_cases hc : (dtcs.filter (fun d => emission_code_list.contains d.code)) ≠ []
    · rw [if_pos hc, List.mem_singleton] at h3
      subst h3
      exact ⟨fun hid => by simp at hid, fun hid => by simp at hid, fun _ => rfl,
        fun hid => by simp at hid, fun hid => by simp at hid⟩
    · rw [if_neg hc] at h3
      exact absurd h3 (List.not_mem_nil h)
  · by_cases hc : (dtcs.filter
        (fun d => startswith d.code "P04" && !emission_code_list.contains d.code)) ≠ []
    · rw [if_pos hc, List.mem_singleton] at h4
      subst h4
      exact ⟨fun hid => by simp at hid, fun hid => by simp at hid,
        fun hid => by simp at hid, fun _ => rfl, fun hid => by simp at hid⟩
    · rw [if_neg hc] at h4
      exact absurd h4 (List.not_mem_nil h)
  · by_cases hc : ((live.filter (fun pd => !pd.2.in_range)).map (fun pd => pd.1)) ≠ []
    · rw [if_pos hc, List.mem_singleton] at h5
      subst h5
      exact ⟨fun hid => by simp at hid, fun hid => by simp at hid,
        fun hid => by simp at hid, fun hid => by simp at hid, fun _ => rfl⟩
    · rw [if_neg hc] at h5
      exact absurd h5 (List.not_mem_nil h)

/-- C9 witness: with misfire codes P0300 and P0301, the ignition
hypothesis is High, and the confidence rule recovers the P0300-substring
condition. -/
theorem hypothesis_confidence_rules_witness :
    (([{ code := "P0300", severity := "critical" },
       { code := "P0301", severity := "critical" }] : List DTCRec).filter
        (fun d => startswith d.code "P03")).any
      (fun d => strContains d.code "P0300") = true :=
  ((hypothesis_confidence_rules
      [{ code := "P0300", severity := "critical" },
       { code := "P0301", severity := "critical" }] []
      { id := "ignition_system", title := "Ignition System Malfunction",
        confidence := "High", dtcs := ["P0300", "P0301"] }
      (by decide)).2.1 rfl).mp rfl

/-- C5: evaluating the effective query of the base manager.  On a plain
(non-mock) OBDInterfaceManager that is connected, the effective query —
the second, mock definition that shadows the exception-safe first one —
raises AttributeError("_simulation_data"), escaping the public boundary;
the not-connected path and the mock instance path return result values. -/
theorem base_query_attribute_error_escapes :
    base_query_effective ⟨ManagerKind.plain, true, true, false⟩ "RPM" =
      Except.error (PyExc.attributeError "_simulation_data") ∧
    base_query_effective ⟨ManagerKind.plain, false, false, false⟩ "RPM" =
      Except.ok { success := false,
                  error_message := some "Not connected to mock OBD adapter" } ∧
    base_query_effective ⟨ManagerKind.mock, true, true, false⟩ "RPM" =
      Except.ok (mock_query_answer "RPM") :=
  ⟨rfl, rfl, rfl⟩

/-- C6 counterexample: when the underlying close raises, disconnect
returns a FAILED response carrying the close error, and the handle and
cached state are left uncleared (only the background tasks were already
stopped), contradicting "always returns success". -/
theorem disconnect_close_error_fails :
    persistent_disconnect ⟨true, true, true, 5, true, true, 3⟩ (some "close failed") =
      (⟨true, true, true, 5, false, true, 3⟩,
       { success := false, error_message := some "close failed" }) := by
  decide

/-- C6 amended: disconnect returns success and clears the handle and
cached state exactly when close does not raise; a raising close is caught
(logged) and returned as a failed response with the handle and cached
fields left in place, and a manager without a handle never consults the
close behaviour, so its disconnect always succeeds. -/
theorem disconnect_error_propagation :
    (∀ s : PState,
      persistent_disconnect s none =
        ({ s with has_connection := false, device_connected := false,
                  is_connected_flag := false, supported_count := 0,
                  tasks_running := false },
         { success := true, data := some RespData.disconnected })) ∧
    (∀ (s : PState) (msg : String), s.has_connection = true →
      persistent_disconnect s (some msg) =
        ({ s with tasks_running := false },
         { success := false, error_message := some msg })) ∧
    (∀ (s : PState) (msg : String), s.has_connection = false →
      (persistent_disconnect s (some msg)).2.success = true) := by
  refine ⟨?_, ?_, ?_⟩
  · intro s
    cases hcon : s.has_connection <;> simp [persistent_disconnect, hcon]
  · intro s msg h
    simp [persistent_disconnect, h]
  · intro s msg h
    simp [persistent_disconnect, h]

/-- C6 amended witness: a raising close on a manager holding a handle,
and a raising close on a manager without one. -/
theorem disconnect_error_propagation_witness :
    persistent_disconnect ⟨true, true, true, 7, true, true, 3⟩ (some "boom") =
      (⟨true, true, true, 7, false, true, 3⟩,
       { success := false, error_message := some "boom" }) ∧
    (persistent_disconnect ⟨false, false, false, 0, false, true, 3⟩
        (some "boom")).2.success = true :=
  ⟨(disconnect_error_propagation.2.1 ⟨true, true, true, 7, true, true, 3⟩ "boom"
      rfl).trans (by decide),
   disconnect_error_propagation.2.2 ⟨false, false, false, 0, false, true, 3⟩ "boom" rfl⟩

/-- The query retry loop never changes the manager state. -/
lemma query_attempt_loop_fst (st : PState) (cmd : String)
    (outcomes : Nat → TransportOutcome) :
    ∀ (n attempt : Nat), (query_attempt_loop st cmd outcomes attempt n).1 = st := by
  intro n
  induction n with
  | zero => intro attempt; rfl
  | succ m ih =>
    intro attempt
    cases m with
    | zero =>
      cases h : outcomes attempt <;> simp [query_attempt_loop, h]
    | succ k =>
      cases h : outcomes attempt
      · simp [query_attempt_loop, h]
      · simp only [query_attempt_loop, h]
        exact ih (attempt + 1)
      · simp only [query_attempt_loop, h]
        exact ih (attempt + 1)

/-- C7 counterexample: with auto-reconnect disabled, a connected manager
whose first query attempt hits a transport I/O error is NOT marked broken
and its handle is NOT closed; the query is retried in place and the
second attempt's value is returned as success, where the claim predicts a
failed QueryResult surfacing the error. -/
theorem query_io_error_keeps_connection :
    persistent_query ⟨true, true, true, 4, true, false, 3⟩ "RPM" none
        (fun n => if n = 0 then TransportOutcome.ioError "I/O error"
                  else TransportOutcome.value 750 (some "rpm")) =
      (⟨true, true, true, 4, true, false, 3⟩,
       { success := true, data := some (RespData.queryValue "RPM" 750 (some "rpm")) }) := by
  decide

/-- C7 amended: a transport-level I/O error during query is treated like
an empty response: the connection state and handle are untouched and the
query is retried in place up to the 3-attempt bound (0.1 x attempt
backoff), the last error being surfaced in a failed QueryResult on
exhaustion; reconnection happens only at the start of query when the
manager is not connected and auto-reconnect is enabled, and with
auto-reconnect disabled a disconnected query fails immediately. -/
theorem query_transport_error_retry_in_place :
    (∀ (s : PState) (cmd : String) (ro : Option PState)
        (outcomes : Nat → TransportOutcome),
      p_is_connected s = true → (persistent_query s cmd ro outcomes).1 = s) ∧
    (∀ (s : PState) (cmd : String) (ro : Option PState)
        (outcomes : Nat → TransportOutcome) (e0 e1 e2 : String),
      p_is_connected s = true →
      outcomes 0 = .ioError e0 → outcomes 1 = .ioError e1 → outcomes 2 = .ioError e2 →
      (persistent_query s cmd ro outcomes).2 =
        { success := false, error_message := some e2 }) ∧
    (∀ (s : PState) (cmd : String) (ro : Option PState)
        (outcomes : Nat → TransportOutcome) (e : String) (v : Int) (u : Option String),
      p_is_connected s = true →
      outcomes 0 = .ioError e → outcomes 1 = .value v u →
      (persistent_query s cmd ro outcomes).2 =
        { success := true, data := some (.queryValue cmd v u) }) ∧
    (∀ (s : PState) (cmd : String) (outcomes : Nat → TransportOutcome),
      p_is_connected s = false → s.auto_reconnect = false →
      persistent_query s cmd none outcomes =
        (s, { success := false, error_message := some "Not connected to OBD adapter" })) := by
  refine ⟨?_, ?_, ?_, ?_⟩
  · intro s cmd ro outcomes h
    simp [persistent_query, h, query_attempt_loop_fst]
  · intro s cmd ro outcomes e0 e1 e2 h h0 h1 h2
    simp [persistent_query, h, internal_max_retries, query_attempt_loop, h0, h1, h2]
  · intro s cmd ro outcomes e v u h h0 h1
    simp [persistent_query, h, internal_max_retries, query_attempt_loop, h0, h1]
  · intro s cmd outcomes h hauto
    simp [persistent_query, h, hauto]

/-- C7 amended witness: three consecutive I/O errors on a connected
manager surface the last error without state change. -/
theorem query_transport_error_retry_in_place_witness :
    (persistent_query ⟨true, true, true, 4, true, true, 3⟩ "RPM" none
        (fun n => TransportOutcome.ioError ("err" ++ toString n))).2 =
      { success := false, error_message := some "err2" } ∧
    (persistent_query ⟨true, true, true, 4, true, true, 3⟩ "RPM" none
        (fun n => TransportOutcome.ioError ("err" ++ toString n))).1 =
      ⟨true, true, true, 4, true, true, 3⟩ :=
  ⟨query_transport_error_retry_in_place.2.1 ⟨true, true, true, 4, true, true, 3⟩
      "RPM" none _ "err0" "err1" "err2" (by decide) (by decide) (by decide) (by decide),
   query_transport_error_retry_in_place.1 ⟨true, true, true, 4, true, true, 3⟩
      "RPM" none _ (by decide)⟩

/-- C8 counterexample: with ConnectionConfig.max_retries = 5 and every
attempt raising, _establish_connection still makes exactly 3 attempts
(the hard-coded internal bound) with sleeps [2, 4] seconds, not 5
attempts. -/
theorem connect_ignores_config_max_retries :
    establish_connection ⟨false, false, false, 0, false, true, 5⟩
        (fun _ => ConnectOutcome.raised "open failed") =
      ⟨⟨false, false, false, 0, false, true, 5⟩, 3, [2, 4], some "open failed"⟩ ∧
    (⟨false, false, false, 0, false, true, 5⟩ : PState).cfg_max_retries = 5 := by
  decide

/-- C8 amended: connect attempts the transport open up to the manager's
fixed internal bound of 3 attempts (ConnectionConfig.max_retries is
stored but never consulted), sleeping retry_delay x attempt = 2s, 4s
between successive attempts, and on exhaustion returns failure carrying
the last error with the manager left not connected; a first successful
attempt connects with no sleeps. -/
theorem connect_retries_fixed_bound :
    (∀ (s : PState) (outcomes : Nat → ConnectOutcome) (m0 m1 m2 : String),
      outcomes 0 = .raised m0 → outcomes 1 = .raised m1 → outcomes 2 = .raised m2 →
      establish_connection s outcomes = ⟨s, 3, [2, 4], some m2⟩) ∧
    (∀ (s : PState) (protocolName : String) (outcomes : Nat → ConnectOutcome)
        (m0 m1 m2 : String),
      p_is_connected s = false →
      outcomes 0 = .raised m0 → outcomes 1 = .raised m1 → outcomes 2 = .raised m2 →
      persistent_connect s protocolName outcomes =
        (s, { success := false, error_message := some m2 })) ∧
    (∀ (s : PState) (outcomes : Nat → ConnectOutcome) (cnt : Nat),
      outcomes 0 = .opened true cnt →
      establish_connection s outcomes =
        ⟨{ s with has_connection := true, device_connected := true,
                  is_connected_flag := true, supported_count := cnt }, 1, [], none⟩) := by
  have hfail : ∀ (s : PState) (outcomes : Nat → ConnectOutcome) (m0 m1 m2 : String),
      outcomes 0 = .raised m0 → outcomes 1 = .raised m1 → outcomes 2 = .raised m2 →
      establish_connection s outcomes = ⟨s, 3, [2, 4], some m2⟩ := by
    intro s outcomes m0 m1 m2 h0 h1 h2
    simp [establish_connection, internal_max_retries, internal_retry_delay,
      establish_loop, h0, h1, h2]
  refine ⟨hfail, ?_, ?_⟩
  · intro s protocolName outcomes m0 m1 m2 hconn h0 h1 h2
    simp [persistent_connect, hconn, hfail s outcomes m0 m1 m2 h0 h1 h2]
  · intro s outcomes cnt h0
    simp [establish_connection, internal_max_retries, establish_loop, h0]

/-- C8 amended witness: three raising attempts on a disconnected manager
configured with max_retries = 5 produce a failed connect carrying the
last message. -/
theorem connect_retries_fixed_bound_witness :
    persistent_connect ⟨false, false, false, 0, false, true, 5⟩ "auto"
        (fun n => ConnectOutcome.raised ("open" ++ toString n)) =
      (⟨false, false, false, 0, false, true, 5⟩,
       { success := false, error_message := some "open2" }) :=
  connect_retries_fixed_bound.2.1 ⟨false, false, false, 0, false, true, 5⟩ "auto" _
    "open0" "open1" "open2" (by decide) (by decide) (by decide) (by decide)

end CarDiag
